import Mathlib

/-!
# Verification of the jacobin class-file ingestion core

A shallow embedding, in Lean 4, of the class-loading, format-checking and
bytecode-verification core of the jacobin JVM (package `classloader`),
together with proofs of the behavioural properties claimed by its
specification.

Conventions of the embedding:
* Go machine integers are modelled as `Nat`/`Int`; a Go conversion
  `uint16(x)` becomes `x % 65536`.
* Go slices become `List`s; a Go slice index that the source bounds-checks
  is modelled with `List.get?`; where the source could panic on an
  out-of-range index, the surrounding function is placed in an `Option`
  monad whose `none` stands for the panic.
* Fallible Go functions `(T, error)` become `Except String T`; a bare
  `error` return becomes `Except String Unit`.
* Go package-global mutable state (the method area, a classloader's
  `ClassCount`, the verifier working variables `Code`/`PC`/`StackEntries`)
  is passed explicitly and returned updated.
-/

deriving instance DecidableEq for Except

namespace Jacobin

/-! ## Constant-pool entry tags (JVMS §4.4 tag values) -/

def Dummy : Nat := 0
def UTF8 : Nat := 1
def IntConst : Nat := 3
def FloatConst : Nat := 4
def LongConst : Nat := 5
def DoubleConst : Nat := 6
def ClassRef : Nat := 7
def StringConst : Nat := 8
def FieldRef : Nat := 9
def MethodRef : Nat := 10
def Interface : Nat := 11
def NameAndType : Nat := 12
def MethodHandle : Nat := 15
def MethodType : Nat := 16
def Dynamic : Nat := 17
def InvokeDynamic : Nat := 18
def Module : Nat := 19
def Package : Nat := 20

/-! ## Runtime constant pool (`CPool`), as used by `FetchCPentry` and the
code verifier.  Field list reconstructed from its uses in
`CPutils.go` and the classloader tests. -/

structure CpEntry where
  -- the source names this field `Type`, a reserved word in Lean
  Typ : Nat
  Slot : Nat
  deriving Repr, DecidableEq

structure DynamicEntry where
  BootstrapIndex : Nat
  NameAndType : Nat
  deriving Repr, DecidableEq

structure FieldRefEntry where
  ClassIndex : Nat
  NameAndType : Nat
  deriving Repr, DecidableEq

-- `ResolvedFieldEntry` appears as the element type of a later
-- revision of the runtime pool's FieldRefs side table; the
-- `convertToPostableClass` in the analysed source still builds
-- `FieldRefEntry` values, which is what `CPool.FieldRefs` holds here.
structure ResolvedFieldEntry where
  ClName : String
  FldName : String
  FldType : String
  deriving Repr, DecidableEq

structure InterfaceRefEntry where
  ClassIndex : Nat
  NameAndType : Nat
  deriving Repr, DecidableEq

structure InvokeDynamicEntry where
  BootstrapIndex : Nat
  NameAndType : Nat
  deriving Repr, DecidableEq

structure MethodHandleEntry where
  RefKind : Nat
  RefIndex : Nat
  deriving Repr, DecidableEq

structure MethodRefEntry where
  ClassIndex : Nat
  NameAndType : Nat
  deriving Repr, DecidableEq

structure NameAndTypeEntry where
  NameIndex : Nat
  DescIndex : Nat
  deriving Repr, DecidableEq

structure CPool where
  CpIndex : List CpEntry := []
  ClassRefs : List Nat := []
  Doubles : List Float := []
  Dynamics : List DynamicEntry := []
  FieldRefs : List FieldRefEntry := []
  Floats : List Float := []
  IntConsts : List Int := []
  InterfaceRefs : List InterfaceRefEntry := []
  InvokeDynamics : List InvokeDynamicEntry := []
  LongConsts : List Int := []
  MethodHandles : List MethodHandleEntry := []
  MethodRefs : List MethodRefEntry := []
  MethodTypes : List Nat := []
  NameAndTypes : List NameAndTypeEntry := []
  Utf8Refs : List String := []

/-! ## `FetchCPentry` (CPutils.go) -/

def IS_ERROR : Nat := 0
def IS_STRUCT_ADDR : Nat := 1
def IS_FLOAT64 : Nat := 2
def IS_INT64 : Nat := 3
def IS_STRING_ADDR : Nat := 4

/-- Model of the `uintptr` produced by the source's address-of on a CP
side table: the pair of the side table and the index whose element the
address denotes.  `null` is the zero value. -/
inductive CpAddr where
  | null
  | dynamics (i : Nat)
  | interfaceRefs (i : Nat)
  | invokeDynamics (i : Nat)
  | methodHandles (i : Nat)
  | methodRefs (i : Nat)
  | nameAndTypes (i : Nat)
  deriving Repr, DecidableEq

structure CpType where
  EntryType : Nat
  RetType : Nat
  IntVal : Int := 0
  FloatVal : Float := 0.0
  AddrVal : CpAddr := .null
  StringVal : Option String := none
  deriving Repr

/-- The fully-zero error value `CpType{EntryType: 0, RetType: IS_ERROR}`
returned on every error path of `FetchCPentry`. -/
def errCpType : CpType := { EntryType := 0, RetType := IS_ERROR }

/-- `FetchUTF8stringFromCPEntryNumber`. Modelled from the spec: the
function itself is not in the analysed source slice; per the source
comment on the `ClassRef` branch of `FetchCPentry` it resolves a CP
entry number to the UTF-8 string it designates, with the empty string
on any failure. -/
def FetchUTF8stringFromCPEntryNumber (cp : CPool) (i : Nat) : String :=
  match cp.CpIndex.get? i with
  | some e => if e.Typ = UTF8 then cp.Utf8Refs.getD e.Slot "" else ""
  | none => ""

/-- `FetchCPentry` (CPutils.go).  The first argument models the Go
pointer `cpp *CPool` (`none` = nil).  The result is `none` exactly when
the Go original would panic on an out-of-range slice index. -/
def FetchCPentry (cpp : Option CPool) (index : Int) : Option CpType :=
  match cpp with
  | none => some errCpType
  | some cp =>
    if index < 1 ∨ index ≥ (cp.CpIndex.length : Int) then some errCpType
    else
      match cp.CpIndex.get? index.toNat with
      | none => none
      | some entry =>
        if entry.Typ = IntConst then
          (cp.IntConsts.get? entry.Slot).map fun v =>
            { EntryType := entry.Typ, RetType := IS_INT64, IntVal := v }
        else if entry.Typ = LongConst then
          (cp.LongConsts.get? entry.Slot).map fun v =>
            { EntryType := entry.Typ, RetType := IS_INT64, IntVal := v }
        else if entry.Typ = MethodType then
          (cp.MethodTypes.get? entry.Slot).map fun v =>
            { EntryType := entry.Typ, RetType := IS_INT64, IntVal := (v : Int) }
        else if entry.Typ = FloatConst then
          (cp.Floats.get? entry.Slot).map fun v =>
            { EntryType := entry.Typ, RetType := IS_FLOAT64, FloatVal := v }
        else if entry.Typ = DoubleConst then
          (cp.Doubles.get? entry.Slot).map fun v =>
            { EntryType := entry.Typ, RetType := IS_FLOAT64, FloatVal := v }
        else if entry.Typ = ClassRef then
          (cp.ClassRefs.get? entry.Slot).map fun e =>
            { EntryType := entry.Typ, RetType := IS_STRING_ADDR,
              StringVal := some (FetchUTF8stringFromCPEntryNumber cp e) }
        else if entry.Typ = StringConst then
          match cp.CpIndex.get? entry.Slot with
          | none => none
          | some e =>
            if e.Typ ≠ UTF8 then some errCpType
            else
              (cp.Utf8Refs.get? e.Slot).map fun str =>
                { EntryType := entry.Typ, RetType := IS_STRING_ADDR,
                  StringVal := some str }
        else if entry.Typ = UTF8 then
          (cp.Utf8Refs.get? entry.Slot).map fun v =>
            { EntryType := entry.Typ, RetType := IS_STRING_ADDR, StringVal := some v }
        else if entry.Typ = Dynamic then
          if entry.Slot < cp.Dynamics.length then
            some { EntryType := entry.Typ, RetType := IS_STRUCT_ADDR,
                   AddrVal := .dynamics entry.Slot }
          else none
        else if entry.Typ = Interface then
          if entry.Slot < cp.InterfaceRefs.length then
            some { EntryType := entry.Typ, RetType := IS_STRUCT_ADDR,
                   AddrVal := .interfaceRefs entry.Slot }
          else none
        else if entry.Typ = InvokeDynamic then
          if entry.Slot < cp.InvokeDynamics.length then
            some { EntryType := entry.Typ, RetType := IS_STRUCT_ADDR,
                   AddrVal := .invokeDynamics entry.Slot }
          else none
        else if entry.Typ = MethodHandle then
          if entry.Slot < cp.MethodHandles.length then
            some { EntryType := entry.Typ, RetType := IS_STRUCT_ADDR,
                   AddrVal := .methodHandles entry.Slot }
          else none
        else if entry.Typ = MethodRef then
          if entry.Slot < cp.MethodRefs.length then
            some { EntryType := entry.Typ, RetType := IS_STRUCT_ADDR,
                   AddrVal := .methodRefs entry.Slot }
          else none
        else if entry.Typ = NameAndType then
          if entry.Slot < cp.NameAndTypes.length then
            some { EntryType := entry.Typ, RetType := IS_STRUCT_ADDR,
                   AddrVal := .nameAndTypes entry.Slot }
          else none
        else
          some errCpType


/-- C10: `FetchCPentry` is total on its error paths: for a nil
constant-pool pointer, for every index below 1 or at/after the end of
`CpIndex`, for every `Module` or `Package` entry, and for a
`StringConst` entry whose target exists but is not a `UTF8` entry, it
returns the complete error value `CpType{EntryType: 0, RetType:
IS_ERROR}` (all other fields zero), never a panic (`none`) and never a
partially filled value. -/
theorem fetchCPentry_error_paths_total :
    (∀ index : Int, FetchCPentry none index = some errCpType) ∧
    (∀ (cp : CPool) (index : Int),
      index < 1 ∨ (cp.CpIndex.length : Int) ≤ index →
      FetchCPentry (some cp) index = some errCpType) ∧
    (∀ (cp : CPool) (index : Int) (entry : CpEntry),
      1 ≤ index → index < (cp.CpIndex.length : Int) →
      cp.CpIndex.get? index.toNat = some entry →
      entry.Typ = Module ∨ entry.Typ = Package →
      FetchCPentry (some cp) index = some errCpType) ∧
    (∀ (cp : CPool) (index : Int) (entry e : CpEntry),
      1 ≤ index → index < (cp.CpIndex.length : Int) →
      cp.CpIndex.get? index.toNat = some entry →
      entry.Typ = StringConst →
      cp.CpIndex.get? entry.Slot = some e →
      e.Typ ≠ UTF8 →
      FetchCPentry (some cp) index = some errCpType) := by
  refine ⟨fun index => rfl, ?_, ?_, ?_⟩
  · intro cp index h
    simp only [FetchCPentry]
    rw [if_pos]
    omega
  · intro cp index entry h1 h2 hget htag
    simp only [FetchCPentry]
    rw [if_neg (by omega), hget]
    rcases htag with h | h <;>
      simp [h, Module, Package, IntConst, LongConst, MethodType, FloatConst,
        DoubleConst, ClassRef, StringConst, UTF8, Dynamic, Interface,
        InvokeDynamic, MethodHandle, MethodRef, NameAndType]
  · intro cp index entry e h1 h2 hget htag htarget hne
    simp only [FetchCPentry]
    rw [if_neg (by omega), hget]
    simp only [htag, StringConst, IntConst, LongConst, MethodType, FloatConst,
      DoubleConst, ClassRef]
    norm_num
    simp only [List.get?_eq_getElem?] at htarget
    rw [htarget]
    simp only []
    rw [if_neg hne]

/-- A small concrete runtime constant pool exercising the error paths of
`FetchCPentry`: slot 1 a Module entry, slot 2 a StringConst whose
target (slot 3) is an IntConst rather than a UTF8. -/
def cpErrPathsPool : CPool :=
  { CpIndex := [⟨Dummy, 0⟩, ⟨Module, 0⟩, ⟨StringConst, 3⟩, ⟨IntConst, 0⟩],
    IntConsts := [42] }

theorem fetchCPentry_error_paths_total_witness :
    FetchCPentry none 1 = some errCpType ∧
    FetchCPentry (some cpErrPathsPool) 9 = some errCpType ∧
    FetchCPentry (some cpErrPathsPool) 1 = some errCpType ∧
    FetchCPentry (some cpErrPathsPool) 2 = some errCpType :=
  ⟨fetchCPentry_error_paths_total.1 1,
   fetchCPentry_error_paths_total.2.1 cpErrPathsPool 9 (by right; decide),
   fetchCPentry_error_paths_total.2.2.1 cpErrPathsPool 1 ⟨Module, 0⟩
     (by decide) (by decide) (by decide) (Or.inl rfl),
   fetchCPentry_error_paths_total.2.2.2 cpErrPathsPool 2 ⟨StringConst, 3⟩
     ⟨IntConst, 0⟩ (by decide) (by decide) (by decide) rfl (by decide)
     (by decide)⟩

/-! ## Parse-side data model (`ParsedClass` and friends, classLoader.go) -/

structure cpEntry where
  entryType : Nat := 0
  slot : Nat := 0
  deriving Repr, DecidableEq

structure utf8Entry where
  content : String
  deriving Repr, DecidableEq

structure fieldRefEntry where
  classIndex : Nat
  nameAndTypeIndex : Nat
  deriving Repr, DecidableEq

structure methodRefEntry where
  classIndex : Nat
  nameAndTypeIndex : Nat
  deriving Repr, DecidableEq

structure interfaceRefEntry where
  classIndex : Nat
  nameAndTypeIndex : Nat
  deriving Repr, DecidableEq

structure nameAndTypeEntry where
  nameIndex : Nat
  descriptorIndex : Nat
  deriving Repr, DecidableEq

structure methodHandleEntry where
  referenceKind : Nat
  referenceIndex : Nat
  deriving Repr, DecidableEq

structure dynamic where
  bootstrapIndex : Nat
  nameAndType : Nat
  deriving Repr, DecidableEq

structure invokeDynamic where
  bootstrapIndex : Nat
  nameAndType : Nat
  deriving Repr, DecidableEq

structure stringConstantEntry where
  index : Nat
  deriving Repr, DecidableEq

structure attr where
  attrName : Nat
  attrSize : Nat
  attrContent : List Nat
  deriving Repr, DecidableEq

structure exception where
  startPc : Nat
  endPc : Nat
  handlerPc : Nat
  catchType : Nat
  deriving Repr, DecidableEq

structure BytecodeToSourceLine where
  BytecodePos : Nat
  SourceLine : Nat
  deriving Repr, DecidableEq

structure paramAttrib where
  name : String
  accessFlags : Nat
  deriving Repr, DecidableEq

structure codeAttrib where
  maxStack : Nat := 0
  maxLocals : Nat := 0
  code : List Nat := []
  exceptions : List exception := []
  attributes : List attr := []
  sourceLineTable : Option (List BytecodeToSourceLine) := none
  deriving Repr, DecidableEq

structure method where
  accessFlags : Nat := 0
  name : Nat := 0
  description : Nat := 0
  codeAttr : codeAttrib := {}
  attributes : List attr := []
  exceptions : List Nat := []
  parameters : List paramAttrib := []
  deprecated : Bool := false
  deriving Repr, DecidableEq

-- the source `field` also carries `constValue interface{}`, an untyped
-- constant payload that nothing in the embedded operations reads
structure field where
  accessFlags : Nat := 0
  isStatic : Bool := false
  name : Nat := 0
  description : Nat := 0
  attributes : List attr := []
  deriving Repr, DecidableEq

structure bootstrapMethod where
  methodRef : Nat
  args : List Nat
  deriving Repr, DecidableEq

structure ParsedClass where
  javaVersion : Nat := 0
  className : String := ""
  classNameIndex : Nat := 0
  superClassIndex : Nat := 0
  moduleName : String := ""
  packageName : String := ""
  interfaceCount : Nat := 0
  interfaces : List Nat := []
  fieldCount : Nat := 0
  fields : List field := []
  methodCount : Nat := 0
  methods : List method := []
  attribCount : Nat := 0
  attributes : List attr := []
  sourceFile : String := ""
  bootstrapCount : Nat := 0
  bootstraps : List bootstrapMethod := []
  deprecated : Bool := false
  cpCount : Nat := 0
  cpIndex : List cpEntry := []
  classRefs : List Nat := []
  doubles : List Float := []
  dynamics : List dynamic := []
  fieldRefs : List fieldRefEntry := []
  floats : List Float := []
  intConsts : List Int := []
  interfaceRefs : List interfaceRefEntry := []
  invokeDynamics : List invokeDynamic := []
  longConsts : List Int := []
  methodHandles : List methodHandleEntry := []
  methodRefs : List methodRefEntry := []
  methodTypes : List Nat := []
  nameAndTypes : List nameAndTypeEntry := []
  stringRefs : List stringConstantEntry := []
  utf8Refs : List utf8Entry := []
  accessFlags : Nat := 0
  classIsPublic : Bool := false
  classIsFinal : Bool := false
  classIsSuper : Bool := false
  classIsInterface : Bool := false
  classIsAbstract : Bool := false
  classIsSynthetic : Bool := false
  classIsAnnotation : Bool := false
  classIsEnum : Bool := false
  classIsModule : Bool := false

/-! ## Postable class data (`ClData` and friends), field lists
reconstructed from their construction in `convertToPostableClass` and
their uses in the classloader tests. -/

structure Attr where
  AttrName : Nat
  AttrSize : Nat
  AttrContent : List Nat
  deriving Repr, DecidableEq

structure Field where
  Name : Nat := 0
  Desc : Nat := 0
  IsStatic : Bool := false
  Attributes : List Attr := []
  deriving Repr, DecidableEq

structure CodeException where
  StartPc : Nat
  EndPc : Nat
  HandlerPc : Nat
  CatchType : Nat
  deriving Repr, DecidableEq

structure ParamAttrib where
  Name : String
  AccessFlags : Nat
  deriving Repr, DecidableEq

structure CodeAttrib where
  MaxStack : Nat := 0
  MaxLocals : Nat := 0
  Code : List Nat := []
  Exceptions : List CodeException := []
  Attributes : List Attr := []
  deriving Repr, DecidableEq

structure Method where
  Name : Nat := 0
  Desc : Nat := 0
  AccessFlags : Nat := 0
  CodeAttr : CodeAttrib := {}
  Attributes : List Attr := []
  Exceptions : List Nat := []
  Parameters : List ParamAttrib := []
  Deprecated : Bool := false
  deriving Repr, DecidableEq

structure AccessFlags where
  ClassIsPublic : Bool := false
  ClassIsFinal : Bool := false
  ClassIsSuper : Bool := false
  ClassIsInterface : Bool := false
  ClassIsAbstract : Bool := false
  ClassIsSynthetic : Bool := false
  ClassIsAnnotation : Bool := false
  ClassIsEnum : Bool := false
  ClassIsModule : Bool := false
  deriving Repr, DecidableEq

structure BootstrapMethod where
  MethodRef : Nat
  Args : List Nat
  deriving Repr, DecidableEq

/-- The `<clinit>` tri-state of the `types` package (`NoClinit`,
`ClInitNotRun`, `ClInitRun`, and the `ClInitInProgress` marker used by
the interpreter while a `<clinit>` runs). -/
inductive ClInitType where
  | NoClinit
  | ClInitNotRun
  | ClInitRun
  | ClInitInProgress
  deriving Repr, DecidableEq

structure ClData where
  Name : String := ""
  NameIndex : Nat := 0
  SuperclassIndex : Nat := 0
  Module : String := ""
  Pkg : String := ""
  Interfaces : List Nat := []
  Fields : List Field := []
  MethodTable : List (String × Method) := []
  ClInit : ClInitType := .NoClinit
  Attributes : List Attr := []
  SourceFile : String := ""
  Bootstraps : List BootstrapMethod := []
  Access : AccessFlags := {}
  CP : CPool := {}

structure Klass where
  Status : Char
  Loader : String
  Data : Option ClData

/-! ## `convertToPostableClass` (classLoader.go) -/

/-- Go's `uint16(x)` narrowing conversion on a non-negative value. -/
def u16 (n : Nat) : Nat := n % 65536

/-- Go's `int32(x)` narrowing conversion. -/
def wrap32 (i : Int) : Int := (i + 2 ^ 31) % 2 ^ 32 - 2 ^ 31

def convertAttr (a : attr) : Attr :=
  { AttrName := u16 a.attrName, AttrSize := a.attrSize,
    AttrContent := a.attrContent }

def convertField (f : field) : Field :=
  { Name := u16 f.name, Desc := u16 f.description, IsStatic := f.isStatic,
    Attributes := f.attributes.map convertAttr }

def convertCodeException (e : exception) : CodeException :=
  { StartPc := e.startPc, EndPc := e.endPc, HandlerPc := e.handlerPc,
    CatchType := u16 e.catchType }

/-- The `kdm` record built for one parsed method in the methods loop of
`convertToPostableClass`.  (The loop also fills a local `JmEntry` that
the function never publishes; that dead local is not modelled.) -/
def convertMethod (m : method) : Method :=
  { Name := u16 m.name,
    Desc := u16 m.description,
    AccessFlags := m.accessFlags,
    CodeAttr :=
      { MaxStack := m.codeAttr.maxStack,
        MaxLocals := m.codeAttr.maxLocals,
        Code := m.codeAttr.code,
        Exceptions := m.codeAttr.exceptions.map convertCodeException,
        Attributes := m.codeAttr.attributes.map convertAttr },
    Attributes := m.attributes.map convertAttr,
    Exceptions := m.exceptions.map u16,
    Parameters := m.parameters.map fun p =>
      { Name := p.name, AccessFlags := p.accessFlags },
    Deprecated := m.deprecated }

/-- `methName + methDesc`, the key under which a method is stored:
the UTF-8 contents at the (narrowed) name and descriptor indices. -/
def methodTableKey (k : ParsedClass) (m : method) : String :=
  (k.utf8Refs.getD (u16 m.name) ⟨""⟩).content ++
    (k.utf8Refs.getD (u16 m.description) ⟨""⟩).content

/-- Go map assignment `tbl[key] = v`: replaces the value when the key is
present, appends the binding otherwise. -/
def mapInsert (tbl : List (String × Method)) (key : String) (v : Method) :
    List (String × Method) :=
  if tbl.any (fun p => p.1 = key) then
    tbl.map fun p => if p.1 = key then (key, v) else p
  else tbl ++ [(key, v)]

/-- Go map membership `_, present := tbl[key]`. -/
def containsKey (tbl : List (String × Method)) (key : String) : Bool :=
  tbl.any fun p => p.1 = key

/-- The methods loop of `convertToPostableClass`. -/
def buildMethodTable (k : ParsedClass) : List (String × Method) :=
  k.methods.foldl
    (fun tbl m => mapInsert tbl (methodTableKey k m) (convertMethod m)) []

/-- One iteration of the CP-copy loop of `convertToPostableClass`:
`StringConst` entries are converted to direct UTF-8 references, the
rest are narrowed to 16 bits. -/
def convertCpIndexEntry (k : ParsedClass) (i : Nat) : CpEntry :=
  let ce := k.cpIndex.getD i {}
  if ce.entryType = StringConst then
    let whichStringConst := ce.slot
    let cpIndexForUTF8 := k.stringRefs.getD whichStringConst ⟨0⟩
    { Typ := UTF8, Slot := u16 (k.cpIndex.getD cpIndexForUTF8.index {}).slot }
  else
    { Typ := u16 ce.entryType, Slot := u16 ce.slot }

/-- `convertToPostableClass` (classLoader.go): turns a format-checked
`ParsedClass` into the postable `ClData`, narrowing indices to 16 bits,
keying methods by name+descriptor, and summarising `<clinit>` presence. -/
def convertToPostableClass (k : ParsedClass) : ClData :=
  let tbl := buildMethodTable k
  { Name := k.className,
    NameIndex := k.classNameIndex,
    SuperclassIndex := k.superClassIndex,
    Module := k.moduleName,
    Pkg := k.packageName,
    Interfaces := k.interfaces.map u16,
    Fields := k.fields.map convertField,
    MethodTable := tbl,
    ClInit :=
      if containsKey tbl "<clinit>()V" then ClInitType.ClInitNotRun
      else ClInitType.NoClinit,
    Attributes := k.attributes.map convertAttr,
    SourceFile := k.sourceFile,
    Bootstraps := k.bootstraps.map fun b =>
      { MethodRef := u16 b.methodRef, Args := b.args.map u16 },
    Access :=
      { ClassIsPublic := k.classIsPublic,
        ClassIsFinal := k.classIsFinal,
        ClassIsSuper := k.classIsSuper,
        ClassIsInterface := k.classIsInterface,
        ClassIsAbstract := k.classIsAbstract,
        ClassIsSynthetic := k.classIsSynthetic,
        ClassIsAnnotation := k.classIsAnnotation,
        ClassIsEnum := k.classIsEnum,
        ClassIsModule := k.classIsModule },
    CP :=
      { CpIndex := (List.range k.cpCount).map (convertCpIndexEntry k),
        ClassRefs := k.classRefs,
        Doubles := k.doubles,
        Dynamics := k.dynamics.map fun d =>
          { BootstrapIndex := u16 d.bootstrapIndex,
            NameAndType := u16 d.nameAndType },
        FieldRefs := k.fieldRefs.map fun fr =>
          { ClassIndex := u16 fr.classIndex,
            NameAndType := u16 fr.nameAndTypeIndex },
        Floats := k.floats,
        IntConsts := k.intConsts.map wrap32,
        InterfaceRefs := k.interfaceRefs.map fun ir =>
          { ClassIndex := u16 ir.classIndex,
            NameAndType := u16 ir.nameAndTypeIndex },
        InvokeDynamics := k.invokeDynamics.map fun id =>
          { BootstrapIndex := u16 id.bootstrapIndex,
            NameAndType := u16 id.nameAndType },
        LongConsts := k.longConsts,
        MethodHandles := k.methodHandles.map fun mh =>
          { RefKind := u16 mh.referenceKind,
            RefIndex := u16 mh.referenceIndex },
        MethodRefs := k.methodRefs.map fun mr =>
          { ClassIndex := u16 mr.classIndex,
            NameAndType := u16 mr.nameAndTypeIndex },
        MethodTypes := k.methodTypes.map u16,
        NameAndTypes := k.nameAndTypes.map fun nat =>
          { NameIndex := u16 nat.nameIndex,
            DescIndex := u16 nat.descriptorIndex },
        Utf8Refs := k.utf8Refs.map utf8Entry.content } }

/-- Any binding present after a Go-map insert either has the inserted
key or was already present. -/
theorem mem_mapInsert (tbl : List (String × Method)) (key : String)
    (v : Method) (p : String × Method) (hp : p ∈ mapInsert tbl key v) :
    p.1 = key ∨ p ∈ tbl := by
  unfold mapInsert at hp
  split at hp
  · obtain ⟨q, hq, hq2⟩ := List.mem_map.mp hp
    by_cases h : q.1 = key
    · rw [if_pos h] at hq2
      left
      rw [← hq2]
    · rw [if_neg h] at hq2
      right
      rw [← hq2]
      exact hq
  · rcases List.mem_append.mp hp with h | h
    · right; exact h
    · left
      have : p = (key, v) := List.mem_singleton.mp h
      rw [this]

/-- Every binding produced by the methods loop over `ms`, starting from
`init`, either comes from `init` or is keyed by the name+descriptor of
one of the methods in `ms`. -/
theorem mem_foldl_mapInsert (k : ParsedClass) :
    ∀ (ms : List method) (init : List (String × Method))
      (p : String × Method),
      p ∈ ms.foldl
        (fun tbl m => mapInsert tbl (methodTableKey k m) (convertMethod m))
        init →
      p ∈ init ∨ ∃ m ∈ ms, p.1 = methodTableKey k m := by
  intro ms
  induction ms with
  | nil => intro init p hp; exact Or.inl hp
  | cons m ms ih =>
    intro init p hp
    simp only [List.foldl_cons] at hp
    rcases ih _ p hp with h | ⟨m', hm', he⟩
    · rcases mem_mapInsert _ _ _ p h with h1 | h2
      · exact Or.inr ⟨m, List.mem_cons_self m ms, h1⟩
      · exact Or.inl h2
    · exact Or.inr ⟨m', List.mem_cons_of_mem m hm', he⟩

/-- C8: for every parsed class, `convertToPostableClass` produces a
`ClData` whose method table is keyed by the concatenation of method
name and descriptor, and whose `ClInit` field is `ClInitNotRun` exactly
when the table holds the key `"<clinit>()V"` and `NoClinit` otherwise;
`ClInitRun` is never produced at publish time. -/
theorem convertToPostableClass_methodTable_and_clinit (k : ParsedClass) :
    (∀ p ∈ (convertToPostableClass k).MethodTable,
      ∃ m ∈ k.methods, p.1 = methodTableKey k m) ∧
    ((convertToPostableClass k).ClInit = ClInitType.ClInitNotRun ↔
      containsKey (convertToPostableClass k).MethodTable "<clinit>()V" = true) ∧
    ((convertToPostableClass k).ClInit = ClInitType.NoClinit ↔
      containsKey (convertToPostableClass k).MethodTable "<clinit>()V" = false) ∧
    (convertToPostableClass k).ClInit ≠ ClInitType.ClInitRun := by
  have hMT : (convertToPostableClass k).MethodTable = buildMethodTable k := rfl
  have hCl : (convertToPostableClass k).ClInit =
      (if containsKey (buildMethodTable k) "<clinit>()V" then
        ClInitType.ClInitNotRun else ClInitType.NoClinit) := rfl
  refine ⟨?_, ?_, ?_, ?_⟩
  · intro p hp
    rw [hMT] at hp
    rcases mem_foldl_mapInsert k k.methods [] p hp with h | h
    · exact absurd h (List.not_mem_nil p)
    · exact h
  · rw [hCl, hMT]
    cases hc : containsKey (buildMethodTable k) "<clinit>()V" <;> simp [hc]
  · rw [hCl, hMT]
    cases hc : containsKey (buildMethodTable k) "<clinit>()V" <;> simp [hc]
  · rw [hCl]
    cases hc : containsKey (buildMethodTable k) "<clinit>()V" <;> simp [hc]

/-- A parsed class whose single method is `<clinit>` with descriptor
`()V`. -/
def clinitTestClass : ParsedClass :=
  { methodCount := 1,
    methods := [{ name := 0, description := 1 }],
    utf8Refs := [⟨"<clinit>"⟩, ⟨"()V"⟩] }

theorem convertToPostableClass_methodTable_and_clinit_witness :
    (∀ p ∈ (convertToPostableClass clinitTestClass).MethodTable,
      ∃ m ∈ clinitTestClass.methods, p.1 = methodTableKey clinitTestClass m) ∧
    (convertToPostableClass clinitTestClass).ClInit = ClInitType.ClInitNotRun ∧
    (convertToPostableClass clinitTestClass).ClInit ≠ ClInitType.ClInitRun := by
  have h := convertToPostableClass_methodTable_and_clinit clinitTestClass
  exact ⟨h.1, h.2.1.mpr (by decide), h.2.2.2⟩

/-! ## `ParseAndPostClass` (classLoader.go) -/

-- the source `Classloader` also holds an `Archives` map of open jar
-- files, which `ParseAndPostClass` never touches
structure Classloader where
  Name : String := ""
  Parent : String := ""
  ClassCount : Nat := 0

/-- The method area, a name-to-Klass map; `MethAreaInsert` adds a
binding. -/
def MethAreaInsert (methArea : List (String × Klass)) (name : String)
    (k : Klass) : List (String × Klass) :=
  (name, k) :: methArea

/-- The mutable state that `ParseAndPostClass` can change: the shared
method area and the calling classloader (whose `ClassCount` it bumps on
success). -/
structure LoaderState where
  methArea : List (String × Klass) := []
  cl : Classloader := {}

/-- `ParseAndPostClass` (classLoader.go): parses a class presented as a
byte slice and, if no errors occurred, posts it to the method area and
increments the classloader's count.  The parser `parse` and the format
checker `formatCheck` (which may rewrite the class, as the source
mutates it through a pointer) live outside the analysed slice and are
taken as parameters; the control flow around them is the source's. -/
def ParseAndPostClass (parse : List Nat → Except String ParsedClass)
    (formatCheck : ParsedClass → Except String ParsedClass)
    (st : LoaderState) (_filename : String) (rawBytes : List Nat) :
    LoaderState × Except String (Nat × Nat) :=
  match parse rawBytes with
  | .error _ => (st, .error "parsing error")
  | .ok fullyParsedClass =>
    match formatCheck fullyParsedClass with
    | .error _ => (st, .error "format-checking error")
    | .ok checkedClass =>
      let classToPost := convertToPostableClass checkedClass
      let eKF : Klass :=
        { Status := 'F', Loader := st.cl.Name, Data := some classToPost }
      ({ methArea := MethAreaInsert st.methArea checkedClass.className eKF,
         cl := { st.cl with ClassCount := st.cl.ClassCount + 1 } },
       .ok (checkedClass.classNameIndex, checkedClass.superClassIndex))

/-- C1: whatever the byte stream, if the parser or the format checker
fails, `ParseAndPostClass` returns an error and leaves the state
untouched: nothing is inserted into the method area and the
classloader's `ClassCount` is not incremented. -/
theorem parseAndPostClass_rejects_without_publish
    (parse : List Nat → Except String ParsedClass)
    (formatCheck : ParsedClass → Except String ParsedClass)
    (st : LoaderState) (filename : String) (rawBytes : List Nat) :
    (∀ e, parse rawBytes = .error e →
      ParseAndPostClass parse formatCheck st filename rawBytes =
        (st, .error "parsing error")) ∧
    (∀ p e, parse rawBytes = .ok p → formatCheck p = .error e →
      ParseAndPostClass parse formatCheck st filename rawBytes =
        (st, .error "format-checking error")) := by
  constructor
  · intro e he
    unfold ParseAndPostClass
    rw [he]
  · intro p e hp he
    unfold ParseAndPostClass
    rw [hp]
    simp only []
    rw [he]

theorem parseAndPostClass_rejects_without_publish_witness :
    (ParseAndPostClass (fun _ => .error "bad magic number")
        (fun p => .ok p) {} "Main.class" [0xCA, 0xFE] =
      ({}, .error "parsing error")) ∧
    (ParseAndPostClass (fun _ => .ok {})
        (fun _ => .error "Error in size of constant pool")
        {} "Main.class" [0xCA, 0xFE] =
      ({}, .error "format-checking error")) :=
  ⟨(parseAndPostClass_rejects_without_publish
      (fun _ => .error "bad magic number") (fun p => .ok p)
      {} "Main.class" [0xCA, 0xFE]).1 "bad magic number" rfl,
   (parseAndPostClass_rejects_without_publish
      (fun _ => .ok {}) (fun _ => .error "Error in size of constant pool")
      {} "Main.class" [0xCA, 0xFE]).2 {} "Error in size of constant pool"
      rfl rfl⟩

/-! ## Unqualified-name syntax (formatCheck misc routine) -/

/-- `validateUnqualifiedName`.  Modelled from the spec: the format
checker itself is outside the analysed source slice.  Grammar (spec
§4.2): an unqualified non-method name is non-empty and contains none of
`.` `;` `[` `/`; an unqualified method name additionally contains
neither `<` nor `>` unless the whole name is `<init>` or `<clinit>`. -/
def validateUnqualifiedName (name : String) (isMethod : Bool) : Bool :=
  if name = "" then false
  else if name.data.any (fun c => c == '.' || c == ';' || c == '[' || c == '/')
    then false
  else if isMethod then
    if name = "<init>" || name = "<clinit>" then true
    else !(name.data.any fun c => c == '<' || c == '>')
  else true

/-- C9: acceptance as an unqualified non-method name implies the name is
non-empty and free of `.` `;` `[` `/`; acceptance as a method name
additionally implies the name is free of `<` `>` unless it is exactly
`<init>` or `<clinit>`. -/
theorem validateUnqualifiedName_sound (s : String) :
    (validateUnqualifiedName s false = true →
      s ≠ "" ∧ ∀ c ∈ s.data, c ≠ '.' ∧ c ≠ ';' ∧ c ≠ '[' ∧ c ≠ '/') ∧
    (validateUnqualifiedName s true = true →
      (s ≠ "" ∧ ∀ c ∈ s.data, c ≠ '.' ∧ c ≠ ';' ∧ c ≠ '[' ∧ c ≠ '/') ∧
      (s ≠ "<init>" → s ≠ "<clinit>" →
        ∀ c ∈ s.data, c ≠ '<' ∧ c ≠ '>')) := by
  have base : ∀ b : Bool, validateUnqualifiedName s b = true →
      s ≠ "" ∧ ∀ c ∈ s.data, c ≠ '.' ∧ c ≠ ';' ∧ c ≠ '[' ∧ c ≠ '/' := by
    intro b h
    unfold validateUnqualifiedName at h
    by_cases h1 : s = ""
    · rw [if_pos h1] at h
      cases h
    · rw [if_neg h1] at h
      by_cases h2 :
          (s.data.any fun c => c == '.' || c == ';' || c == '[' || c == '/') =
            true
      · rw [if_pos h2] at h
        cases h
      · refine ⟨h1, ?_⟩
        intro c hc
        have hnc : ¬ ((c == '.' || c == ';' || c == '[' || c == '/') = true) :=
          fun hx => h2 (List.any_eq_true.mpr ⟨c, hc, hx⟩)
        simp only [Bool.or_eq_true, beq_iff_eq] at hnc
        push_neg at hnc
        exact ⟨hnc.1.1.1, hnc.1.1.2, hnc.1.2, hnc.2⟩
  refine ⟨base false, fun h => ⟨base true h, ?_⟩⟩
  intro hni hncl c hc
  obtain ⟨h1, _⟩ := base true h
  unfold validateUnqualifiedName at h
  rw [if_neg h1] at h
  by_cases h2 :
      (s.data.any fun c => c == '.' || c == ';' || c == '[' || c == '/') = true
  · rw [if_pos h2] at h
    cases h
  · rw [if_neg h2, if_pos rfl, if_neg (by simp [hni, hncl])] at h
    rw [Bool.not_eq_eq_eq_not, Bool.not_true, List.any_eq_false] at h
    have := h c hc
    simp only [Bool.or_eq_true, beq_iff_eq, not_or] at this
    exact this

theorem validateUnqualifiedName_sound_witness :
    ("isArray" : String) ≠ "" ∧
    (∀ c ∈ ("isArray" : String).data,
      c ≠ '.' ∧ c ≠ ';' ∧ c ≠ '[' ∧ c ≠ '/') :=
  (validateUnqualifiedName_sound "isArray").1 (by decide)

/-! ## Format checker (formatCheck.go).  The format checker itself is
outside the analysed source slice; the definitions in this section are
modelled from the spec (§4.2), with the diagnostic strings taken from
the spec's seed scenarios. -/

/-- The message built by `cfe` (classLoader.go): the prefix
`"Class Format Error: "` plus the reason.  (The source also appends the
reporting file and line, which a shallow embedding cannot name.) -/
def cfeMsg (msg : String) : String := "Class Format Error: " ++ msg

/-- Modelled from the spec: one field descriptor
(`B|C|D|F|I|J|S|Z | L<classname>; | [<descriptor>`), returning the
unconsumed remainder on success. -/
def parseFieldDesc : List Char → Option (List Char)
  | [] => none
  | c :: rest =>
    if c = 'B' ∨ c = 'C' ∨ c = 'D' ∨ c = 'F' ∨ c = 'I' ∨ c = 'J' ∨
        c = 'S' ∨ c = 'Z' then some rest
    else if c = 'L' then
      match rest.span (fun ch => ch != ';') with
      | (cls, sc :: rest2) => if cls = [] ∨ sc ≠ ';' then none else some rest2
      | (_, []) => none
    else if c = '[' then parseFieldDesc rest
    else none

/-- Modelled from the spec: a complete field descriptor. -/
def validFieldDesc (s : String) : Bool :=
  match parseFieldDesc s.data with
  | some [] => true
  | _ => false

/-- Modelled from the spec: the parameter list of a method descriptor,
a sequence of field descriptors terminated by `)`; the fuel bounds the
number of parameters by the remaining length. -/
def parseParamsAux : Nat → List Char → Option (List Char)
  | _, ')' :: rest => some rest
  | 0, _ => none
  | fuel + 1, l =>
    match parseFieldDesc l with
    | some rest => parseParamsAux fuel rest
    | none => none

/-- `validateMethodDesc`.  Modelled from the spec: a method descriptor
is `(<field-desc>*)` followed by a field descriptor or `V` (§3). -/
def validateMethodDesc (s : String) : Except String Unit :=
  match s.data with
  | '(' :: rest =>
    match parseParamsAux rest.length rest with
    | some ret =>
      if ret = ['V'] ∨ parseFieldDesc ret = some [] then .ok ()
      else .error (cfeMsg "invalid return type in method descriptor")
    | none => .error (cfeMsg "invalid parameter in method descriptor")
  | _ => .error (cfeMsg "method descriptor does not start with an open parenthesis")

/-- Modelled from the spec: a NameAndType descriptor may denote either
a field type or a method type. -/
def validDescriptor (s : String) : Bool :=
  validFieldDesc s || (validateMethodDesc s matches .ok _)

/-- Modelled from the spec (§4.2 name grammar): module and package
names are non-empty, `\\` escapes exactly `:`, `@` and `\\`, a bare
`:` or `@` is illegal, and a trailing unescaped `\\` is illegal. -/
def moduleNameCharsOk : List Char → Bool
  | [] => true
  | '\\' :: c :: rest =>
    if c = ':' ∨ c = '@' ∨ c = '\\' then moduleNameCharsOk rest else false
  | ['\\'] => false
  | c :: rest => if c = ':' ∨ c = '@' then false else moduleNameCharsOk rest

/-- `checkModuleName`.  Modelled from the spec's module/package name
grammar. -/
def checkModuleName (name : String) : Except String Unit :=
  if name = "" then .error (cfeMsg "empty module name")
  else if moduleNameCharsOk name.data then .ok ()
  else .error (cfeMsg "invalid character in module name")

/-- `checkPackageName`.  Modelled from the spec: identical grammar to
module names, different diagnostics. -/
def checkPackageName (name : String) : Except String Unit :=
  if name = "" then .error (cfeMsg "empty package name")
  else if moduleNameCharsOk name.data then .ok ()
  else .error (cfeMsg "invalid character in package name")

/-- `validateItemIsLodable`.  Modelled from the spec: the loadable CP
entry kinds (§3 glossary). -/
def validateItemIsLodable (klass : ParsedClass) (i : Nat) : Bool :=
  match klass.cpIndex.get? i with
  | some e =>
    e.entryType = IntConst ∨ e.entryType = LongConst ∨
      e.entryType = FloatConst ∨ e.entryType = DoubleConst ∨
      e.entryType = StringConst ∨ e.entryType = ClassRef ∨
      e.entryType = MethodHandle ∨ e.entryType = MethodType ∨
      e.entryType = Dynamic
  | none => false

/-- Modelled from the spec: resolve a CP index expected to designate a
UTF-8 entry to its contents. -/
def getUTF8 (klass : ParsedClass) (i : Nat) : Option String :=
  match klass.cpIndex.get? i with
  | some e =>
    if e.entryType = UTF8 then (klass.utf8Refs.get? e.slot).map utf8Entry.content
    else none
  | none => none

/-- Modelled from the spec: resolve a CP index expected to designate a
NameAndType entry to its (name, descriptor) string pair. -/
def resolveNameAndType (klass : ParsedClass) (i : Nat) :
    Option (String × String) :=
  match klass.cpIndex.get? i with
  | some e =>
    if e.entryType = NameAndType then
      match klass.nameAndTypes.get? e.slot with
      | some nat =>
        match getUTF8 klass nat.nameIndex, getUTF8 klass nat.descriptorIndex with
        | some n, some d => some (n, d)
        | _, _ => none
      | none => none
    else none
  | none => none

/-- Modelled from the spec: the class-name grammar used for ClassRef
entries (no `.`, no `;`, `[` only for array classes). -/
def validClassName (name : String) : Bool :=
  if name = "" then false
  else if name.startsWith "[" then true
  else !(name.data.any fun c => c == '.' || c == ';' || c == '[')

/-- Modelled from the spec: the check of one MethodHandle entry, the
(ref_kind, target kind) table of §4.2, with InterfaceMethodRef targets
of kinds 6 and 7 admitted only from class-file major version 52.  The
additional `<init>`-name refinement for kind 8 is deferred in the
source (JACOBIN-183) and therefore not modelled. -/
def checkMethodHandleEntry (klass : ParsedClass) (mh : methodHandleEntry) :
    Except String Unit :=
  match klass.cpIndex.get? mh.referenceIndex with
  | none => .error (cfeMsg "MethodHandle reference index is not a valid CP entry")
  | some target =>
    if 1 ≤ mh.referenceKind ∧ mh.referenceKind ≤ 4 then
      if target.entryType = FieldRef then .ok ()
      else .error (cfeMsg "MethodHandle which does not point to a FieldRef")
    else if mh.referenceKind = 5 ∨ mh.referenceKind = 8 then
      if target.entryType = MethodRef then .ok ()
      else .error (cfeMsg "MethodHandle which does not point to a MethodRef")
    else if mh.referenceKind = 6 ∨ mh.referenceKind = 7 then
      if target.entryType = MethodRef then .ok ()
      else if target.entryType = Interface then
        if 52 ≤ klass.javaVersion then .ok ()
        else .error (cfeMsg
          "MethodHandle can point to an interface method only with reference kind 7 or in Java version 52 or later")
      else .error (cfeMsg "MethodHandle which does not point to a method")
    else if mh.referenceKind = 9 then
      if target.entryType = Interface then .ok ()
      else .error (cfeMsg
        "MethodHandle has a reference kind  of 9 which does not point to an interface")
    else .error (cfeMsg "MethodHandle with an invalid reference kind")

/-- Modelled from the spec: the per-kind check of the CP entry at index
`i` (§4.2 step 3).  `pool` is the process-global string pool, passed
explicitly. -/
def checkCPentry (pool : List String) (klass : ParsedClass) (i : Nat) :
    Except String Unit :=
  match klass.cpIndex.get? i with
  | none => .error (cfeMsg "invalid index into constant pool")
  | some ce =>
    if ce.entryType = Dummy then .ok ()
    else if ce.entryType = UTF8 then
      match klass.utf8Refs.get? ce.slot with
      | none => .error (cfeMsg "points to invalid UTF8 entry")
      | some u =>
        if u.content.data.any (fun c =>
            c.toNat = 0 ∨ (0xF0 ≤ c.toNat ∧ c.toNat ≤ 0xFF)) then
          .error (cfeMsg "UTF8 entry contains an invalid character")
        else .ok ()
    else if ce.entryType = IntConst then
      if ce.slot < klass.intConsts.length then .ok ()
      else .error (cfeMsg "invalid entry in CP intConsts")
    else if ce.entryType = FloatConst then
      if ce.slot < klass.floats.length then .ok ()
      else .error (cfeMsg "invalid entry in CP floats")
    else if ce.entryType = LongConst then
      if ce.slot < klass.longConsts.length then
        match klass.cpIndex.get? (i + 1) with
        | some nxt =>
          if nxt.entryType = Dummy then .ok ()
          else .error (cfeMsg "Missing dummy entry after long constant")
        | none => .error (cfeMsg "Missing dummy entry after long constant")
      else .error (cfeMsg "invalid entry in CP longConsts")
    else if ce.entryType = DoubleConst then
      if ce.slot < klass.doubles.length then
        match klass.cpIndex.get? (i + 1) with
        | some nxt =>
          if nxt.entryType = Dummy then .ok ()
          else .error (cfeMsg "Missing dummy entry after double constant")
        | none => .error (cfeMsg "Missing dummy entry after double constant")
      else .error (cfeMsg "invalid entry in CP doubles")
    else if ce.entryType = StringConst then
      if ce.slot < klass.utf8Refs.length then .ok ()
      else .error (cfeMsg "invalid entry in CP utf8Refs")
    else if ce.entryType = ClassRef then
      match klass.classRefs.get? ce.slot with
      | none => .error (cfeMsg "points to an invalid entry in ClassRefs")
      | some handle =>
        match pool.get? handle with
        | none => .error (cfeMsg "holds an invalid string-pool handle")
        | some name =>
          if validClassName name then .ok ()
          else .error (cfeMsg "holds an invalid class name")
    else if ce.entryType = FieldRef then
      match klass.fieldRefs.get? ce.slot with
      | none => .error (cfeMsg "invalid entry in CP fieldRefs")
      | some fr =>
        match klass.cpIndex.get? fr.classIndex with
        | some cls =>
          if cls.entryType = ClassRef then
            match klass.cpIndex.get? fr.nameAndTypeIndex with
            | some nat =>
              if nat.entryType = NameAndType then
                match resolveNameAndType klass fr.nameAndTypeIndex with
                | some (n, d) =>
                  if validateUnqualifiedName n false then
                    if validFieldDesc d then .ok ()
                    else .error (cfeMsg "FieldRef with an invalid field descriptor")
                  else .error (cfeMsg "FieldRef with an invalid field name")
                | none => .error (cfeMsg "points to an invalid entry in nameAndType")
              else .error (cfeMsg "points to an invalid entry in nameAndType")
            | none => .error (cfeMsg "points to an invalid entry in nameAndType")
          else .error (cfeMsg "points to an invalid entry in ClassRefs")
        | none => .error (cfeMsg "points to an invalid entry in ClassRefs")
    else if ce.entryType = MethodRef ∨ ce.entryType = Interface then
      match (if ce.entryType = MethodRef then
              (klass.methodRefs.get? ce.slot).map fun mr =>
                (mr.classIndex, mr.nameAndTypeIndex)
             else
              (klass.interfaceRefs.get? ce.slot).map fun ir =>
                (ir.classIndex, ir.nameAndTypeIndex)) with
      | none => .error (cfeMsg "invalid entry in CP methodRefs")
      | some (clsIdx, natIdx) =>
        match klass.cpIndex.get? clsIdx with
        | some cls =>
          if cls.entryType = ClassRef then
            match resolveNameAndType klass natIdx with
            | some (n, d) =>
              if validateUnqualifiedName n true ∧
                  (¬ n.startsWith "<" ∨ n = "<init>") then
                match validateMethodDesc d with
                | .ok _ => .ok ()
                | .error _ =>
                  .error (cfeMsg "an entry with an invalid method descriptor")
              else .error (cfeMsg "an entry with an invalid method name")
            | none => .error (cfeMsg "points to an invalid entry in nameAndType")
          else .error (cfeMsg "points to an invalid entry in ClassRefs")
        | none => .error (cfeMsg "points to an invalid entry in ClassRefs")
    else if ce.entryType = NameAndType then
      match resolveNameAndType klass i with
      | some (n, d) =>
        if validateUnqualifiedName n false ∨ n = "<init>" ∨ n = "<clinit>" then
          if validDescriptor d then .ok ()
          else .error (cfeMsg "NameAndType with an invalid descriptor")
        else .error (cfeMsg "NameAndType with an invalid name")
      | none => .error (cfeMsg "invalid NameAndType entry")
    else if ce.entryType = MethodHandle then
      match klass.methodHandles.get? ce.slot with
      | none => .error (cfeMsg "invalid entry in CP methodHandles")
      | some mh => checkMethodHandleEntry klass mh
    else if ce.entryType = MethodType then
      match klass.methodTypes.get? ce.slot with
      | none => .error (cfeMsg "invalid entry in CP methodTypes")
      | some mt =>
        match getUTF8 klass mt with
        | none => .error (cfeMsg "MethodType does not point to a UTF8 entry")
        | some d =>
          if d.startsWith "(" then .ok ()
          else .error (cfeMsg
            "MethodType does not point to a type that starts with an open parenthesis")
    else if ce.entryType = Dynamic ∨ ce.entryType = InvokeDynamic then
      match (if ce.entryType = Dynamic then
              (klass.dynamics.get? ce.slot).map fun dy =>
                (dy.bootstrapIndex, dy.nameAndType)
             else
              (klass.invokeDynamics.get? ce.slot).map fun idy =>
                (idy.bootstrapIndex, idy.nameAndType)) with
      | none => .error (cfeMsg "points to a non-existent invokeDynamic slot")
      | some (bsIdx, natIdx) =>
        match klass.bootstraps.get? bsIdx with
        | none => .error (cfeMsg "points outside the bootstrap-method table")
        | some bsm =>
          if bsm.args.all (validateItemIsLodable klass) then
            match resolveNameAndType klass natIdx with
            | some (_, d) =>
              if ce.entryType = Dynamic then
                if validFieldDesc d then .ok ()
                else .error (cfeMsg "Dynamic descriptor does not denote a field type")
              else
                match validateMethodDesc d with
                | .ok _ => .ok ()
                | .error _ =>
                  .error (cfeMsg "invokeDynamic descriptor does not denote a method type")
            | none => .error (cfeMsg "invalid NameAndType entry")
          else .error (cfeMsg "bootstrap argument is not a loadable entry")
    else if ce.entryType = Module then
      if klass.classIsModule ∧ 53 ≤ klass.javaVersion then
        checkModuleName klass.moduleName
      else .error (cfeMsg "Module entry in a class that is not a module")
    else if ce.entryType = Package then
      if klass.classIsModule ∧ 53 ≤ klass.javaVersion then
        checkPackageName klass.packageName
      else .error (cfeMsg "Package entry in a class that is not a module")
    else .error (cfeMsg "invalid constant pool entry type")

/-- `formatCheckConstantPool`.  Modelled from the spec (§4.2): the CP
size must match the declared count, slot 0 must be the reserved dummy,
and each following entry must pass its per-kind check in order. -/
def formatCheckConstantPool (pool : List String) (klass : ParsedClass) :
    Except String Unit :=
  if klass.cpIndex.length ≠ klass.cpCount then
    .error (cfeMsg "Error in size of constant pool")
  else if (klass.cpIndex.getD 0 {}).entryType ≠ Dummy then
    .error (cfeMsg "Missing dummy entry in first slot of constant pool")
  else
    (List.range' 1 (klass.cpCount - 1)).forM (checkCPentry pool klass)

/-- C3: whenever the declared constant-pool count differs from the
actual number of constant-pool entries, `formatCheckConstantPool` fails
and its diagnostic contains `"Error in size of constant pool"`. -/
theorem formatCheckConstantPool_cp_size_mismatch (pool : List String)
    (klass : ParsedClass) (h : klass.cpCount ≠ klass.cpIndex.length) :
    ∃ msg, formatCheckConstantPool pool klass = .error msg ∧
      ∃ pre post, msg = pre ++ "Error in size of constant pool" ++ post := by
  refine ⟨cfeMsg "Error in size of constant pool", ?_,
    "Class Format Error: ", "", by decide⟩
  unfold formatCheckConstantPool
  rw [if_pos (Ne.symm h)]

/-- The class of the CP-size seed scenario: two real entries under a
declared count of four. -/
def invalidCPsizeClass : ParsedClass :=
  { cpCount := 4,
    cpIndex := [{}, { entryType := UTF8, slot := 0 }],
    utf8Refs := [⟨"Exceptions"⟩, ⟨"testMethod"⟩] }

theorem formatCheckConstantPool_cp_size_mismatch_witness :
    ∃ msg, formatCheckConstantPool [] invalidCPsizeClass = .error msg ∧
      ∃ pre post, msg = pre ++ "Error in size of constant pool" ++ post :=
  formatCheckConstantPool_cp_size_mismatch [] invalidCPsizeClass (by decide)

/-- C4: a MethodHandle entry of ref_kind 6 whose target is an
InterfaceMethodRef entry is accepted by the format checker exactly when
the class-file major version is at least 52; below 52 the diagnostic
contains `"or in Java version 52 or later"`. -/
theorem methodHandle_kind6_interface_version_gate (klass : ParsedClass)
    (mh : methodHandleEntry) (target : cpEntry)
    (hkind : mh.referenceKind = 6)
    (htarget : klass.cpIndex.get? mh.referenceIndex = some target)
    (htype : target.entryType = Interface) :
    (checkMethodHandleEntry klass mh = .ok () ↔ 52 ≤ klass.javaVersion) ∧
    (klass.javaVersion < 52 →
      ∃ msg, checkMethodHandleEntry klass mh = .error msg ∧
        ∃ pre post, msg = pre ++ "or in Java version 52 or later" ++ post) := by
  have hred : checkMethodHandleEntry klass mh =
      (if 52 ≤ klass.javaVersion then .ok ()
       else .error (cfeMsg
        "MethodHandle can point to an interface method only with reference kind 7 or in Java version 52 or later")) := by
    unfold checkMethodHandleEntry
    rw [htarget]
    simp only []
    rw [if_neg (by omega), if_neg (by omega), if_pos (Or.inl hkind),
      if_neg (by rw [htype]; decide), if_pos htype]
  constructor
  · rw [hred]
    by_cases hv : 52 ≤ klass.javaVersion
    · rw [if_pos hv]
      exact ⟨fun _ => hv, fun _ => rfl⟩
    · rw [if_neg hv]
      exact ⟨fun hx => absurd hx (by simp), fun hx => absurd hx hv⟩
  · intro hv
    rw [hred, if_neg (by omega)]
    exact ⟨_, rfl,
      "Class Format Error: MethodHandle can point to an interface method only with reference kind 7 ",
      "", by decide⟩

/-- The MethodHandle-to-interface seed scenario at major version 54:
CP entry 1 is the MethodHandle (kind 6), CP entry 2 the
InterfaceMethodRef it targets. -/
def mhGateClass54 : ParsedClass :=
  { javaVersion := 54,
    cpCount := 3,
    cpIndex := [{}, { entryType := MethodHandle, slot := 0 },
      { entryType := Interface, slot := 0 }],
    methodHandles := [{ referenceKind := 6, referenceIndex := 2 }],
    interfaceRefs := [{ classIndex := 7, nameAndTypeIndex := 3 }] }

/-- The same class at major version 50. -/
def mhGateClass50 : ParsedClass :=
  { mhGateClass54 with javaVersion := 50 }

theorem methodHandle_kind6_interface_version_gate_witness :
    checkMethodHandleEntry mhGateClass54
      { referenceKind := 6, referenceIndex := 2 } = .ok () ∧
    ∃ msg, checkMethodHandleEntry mhGateClass50
        { referenceKind := 6, referenceIndex := 2 } = .error msg ∧
      ∃ pre post, msg = pre ++ "or in Java version 52 or later" ++ post :=
  ⟨(methodHandle_kind6_interface_version_gate mhGateClass54
      { referenceKind := 6, referenceIndex := 2 }
      { entryType := Interface, slot := 0 } rfl (by decide) rfl).1.mpr
      (by decide),
   (methodHandle_kind6_interface_version_gate mhGateClass50
      { referenceKind := 6, referenceIndex := 2 }
      { entryType := Interface, slot := 0 } rfl (by decide) rfl).2
      (by decide)⟩

/-! ## Code verifier (codeCheck.go).  The verifier itself is outside
the analysed source slice; this section is modelled from the spec
(§4.3) and mirrors the per-opcode handler names and return values that
the migrated tests exercise.  The source's working globals `Code`,
`PC`, `StackEntries` and `CP` become explicit arguments; each handler
returns the PC advance as in the source. -/

def NOP : Nat := 0x00
def ACONST_NULL : Nat := 0x01
def ICONST_0 : Nat := 0x03
def LCONST_0 : Nat := 0x09
def BIPUSH : Nat := 0x10
def SIPUSH : Nat := 0x11
def LDC : Nat := 0x12
def LDC_W : Nat := 0x13
def LDC2_W : Nat := 0x14
def FLOAD : Nat := 0x17
def ISTORE : Nat := 0x36
def FSTORE : Nat := 0x38
def POP : Nat := 0x57
def POP2 : Nat := 0x58
def DUP : Nat := 0x59
def DUP2 : Nat := 0x5C
def IADD : Nat := 0x60
def LADD : Nat := 0x61
def IFEQ : Nat := 0x99
def IF_ACMPEQ : Nat := 0xA5
def GOTO : Nat := 0xA7
def TABLESWITCH : Nat := 0xAA
def RETURN : Nat := 0xB1
def GETFIELD : Nat := 0xB4
def INVOKEVIRTUAL : Nat := 0xB6
def INVOKESPECIAL : Nat := 0xB7
def INVOKESTATIC : Nat := 0xB8
def INVOKEINTERFACE : Nat := 0xB9
def MULTIANEWARRAY : Nat := 0xC5
def GOTO_W : Nat := 0xC8
def JSR_W : Nat := 0xC9

/-- Utility handlers of the source: the fixed PC advances. -/
def Return1 : Nat := 1
def Return2 : Nat := 2
def Return3 : Nat := 3
def Return4 : Nat := 4
def Return5 : Nat := 5

/-- Modelled from the spec: the fixed set of opcodes that operate on a
Long or Double (JVMS category 2) slot: the long/double constants,
LDC2_W, the long/double loads and stores (indexed, `_n` and array
forms) and the long/double arithmetic and logic opcodes. -/
def BytecodeIsForLongOrDouble (b : Nat) : Bool :=
  [0x09, 0x0A, 0x0E, 0x0F, 0x14, 0x16, 0x18,
   0x1E, 0x1F, 0x20, 0x21, 0x26, 0x27, 0x28, 0x29, 0x2F, 0x31,
   0x37, 0x39, 0x3F, 0x40, 0x41, 0x42, 0x47, 0x48, 0x49, 0x4A, 0x50, 0x52,
   0x61, 0x63, 0x65, 0x67, 0x69, 0x6B, 0x6D, 0x6F, 0x71, 0x73,
   0x75, 0x77, 0x79, 0x7B, 0x7D, 0x7F, 0x81, 0x83].contains b

/-- Two bytes as a signed 16-bit branch offset. -/
def sign16 (n : Nat) : Int :=
  if n < 0x8000 then (n : Int) else (n : Int) - 0x10000

/-- Four bytes as a signed 32-bit branch offset. -/
def sign32 (n : Nat) : Int :=
  if n < 0x80000000 then (n : Int) else (n : Int) - 0x100000000

/-- The unsigned 16-bit operand at `pc+1`, `pc+2`. -/
def operand16 (code : List Nat) (pc : Nat) : Nat :=
  code.getD (pc + 1) 0 * 256 + code.getD (pc + 2) 0

/-- The unsigned 32-bit operand at `pc+1` … `pc+4`. -/
def operand32 (code : List Nat) (pc : Nat) : Nat :=
  ((code.getD (pc + 1) 0 * 256 + code.getD (pc + 2) 0) * 256 +
    code.getD (pc + 3) 0) * 256 + code.getD (pc + 4) 0

def verifyErr (cause : String) : String := "java.lang.VerifyError: " ++ cause

/-- `CheckAconstnull`: pushes one slot, advances 1. -/
def CheckAconstnull (stack : Int) : Int × Nat := (stack + 1, Return1)

/-- `CheckBipush`: one operand byte must remain; pushes one slot. -/
def CheckBipush (code : List Nat) (pc : Nat) (stack : Int) :
    Except String (Int × Nat) :=
  if pc + 1 < code.length then .ok (stack + 1, Return2)
  else .error (verifyErr "Invalid bytecode or argument")

/-- `CheckSipush`: two operand bytes must remain; pushes one slot. -/
def CheckSipush (code : List Nat) (pc : Nat) (stack : Int) :
    Except String (Int × Nat) :=
  if pc + 2 < code.length then .ok (stack + 1, Return3)
  else .error (verifyErr "Invalid bytecode or argument")

/-- `CheckDup1`: duplicates the top slot. -/
def CheckDup1 (stack : Int) : Int × Nat := (stack + 1, Return1)

/-- `CheckDup2` (spec §4.3 rule 4): if the next decoded opcode operates
on a Long/Double slot, the `DUP2` byte is rewritten in place to `DUP`
and the depth model grows by 1; otherwise the byte stays and the depth
model grows by 2.  Returns the possibly rewritten code, the new depth
and the PC advance. -/
def CheckDup2 (code : List Nat) (pc : Nat) (stack : Int) :
    List Nat × Int × Nat :=
  match code.get? (pc + 1) with
  | some next =>
    if BytecodeIsForLongOrDouble next then (code.set pc DUP, stack + 1, Return1)
    else (code, stack + 2, Return1)
  | none => (code, stack + 2, Return1)

/-- `CheckPop`: drops one slot. -/
def CheckPop (stack : Int) : Int × Nat := (stack - 1, Return1)

/-- `CheckPop2`: drops two slots. -/
def CheckPop2 (stack : Int) : Int × Nat := (stack - 2, Return1)

/-- `CheckGetfield` (spec §4.3 rule 2, also used for the other three
field-access opcodes): the two-byte CP index must designate a FieldRef
entry. -/
def CheckGetfield (cp : CPool) (code : List Nat) (pc : Nat) :
    Except String Nat :=
  if pc + 2 < code.length then
    let idx := operand16 code pc
    if idx < cp.CpIndex.length then
      if (cp.CpIndex.getD idx ⟨0, 0⟩).Typ = FieldRef then .ok Return3
      else .error (verifyErr "Expected: field ref, but the CP entry is not a field reference")
    else .error (verifyErr "GETFIELD points to an invalid CP slot")
  else .error (verifyErr "Invalid bytecode or argument")

/-- `CheckInvokevirtual` (also used for INVOKESPECIAL and
INVOKESTATIC): the two-byte CP index must designate a MethodRef
entry. -/
def CheckInvokevirtual (cp : CPool) (code : List Nat) (pc : Nat) :
    Except String Nat :=
  if pc + 2 < code.length then
    let idx := operand16 code pc
    if idx < cp.CpIndex.length then
      if (cp.CpIndex.getD idx ⟨0, 0⟩).Typ = MethodRef then .ok Return3
      else .error (verifyErr "Expected: method ref, but the CP entry is not a method reference")
    else .error (verifyErr "invoke points to an invalid CP slot")
  else .error (verifyErr "Invalid bytecode or argument")

/-- `CheckInvokeinterface` (spec §4.3 rule 2): the two-byte CP index
must designate an InterfaceMethodRef entry, the following count byte
must be non-zero and the fourth operand byte must be zero. -/
def CheckInvokeinterface (cp : CPool) (code : List Nat) (pc : Nat) :
    Except String Nat :=
  if pc + 4 < code.length then
    if operand16 code pc < cp.CpIndex.length then
      if (cp.CpIndex.getD (operand16 code pc) ⟨0, 0⟩).Typ = Interface then
        if code.getD (pc + 3) 0 ≠ 0 then
          if code.getD (pc + 4) 0 = 0 then .ok Return4
          else .error (verifyErr "INVOKEINTERFACE fourth operand byte is not zero")
        else .error (verifyErr "INVOKEINTERFACE count byte is zero")
      else .error (verifyErr "INVOKEINTERFACE CP entry is not an interface method reference")
    else .error (verifyErr "INVOKEINTERFACE points to an invalid CP slot")
  else .error (verifyErr "Invalid bytecode or argument")

/-- `CheckMultianewarray` (spec §4.3 rule 2): the two-byte CP index
must designate a ClassRef entry and the dimensions byte must be at
least 1. -/
def CheckMultianewarray (cp : CPool) (code : List Nat) (pc : Nat) :
    Except String Nat :=
  if pc + 3 < code.length then
    let idx := operand16 code pc
    if idx < cp.CpIndex.length then
      if (cp.CpIndex.getD idx ⟨0, 0⟩).Typ = ClassRef then
        if 1 ≤ code.getD (pc + 3) 0 then .ok Return4
        else .error (verifyErr "MULTIANEWARRAY dimensions byte must be at least 1")
      else .error (verifyErr "MULTIANEWARRAY CP entry is not a class reference")
    else .error (verifyErr "MULTIANEWARRAY points to an invalid CP slot")
  else .error (verifyErr "Invalid bytecode or argument")

/-- `CheckGoto` (spec §4.3 rule 3): the target `PC + signed 16-bit
offset` must lie within `[0, len(code))`. -/
def CheckGoto (code : List Nat) (pc : Nat) : Except String Nat :=
  if pc + 2 < code.length then
    if 0 ≤ (pc : Int) + sign16 (operand16 code pc) ∧
        (pc : Int) + sign16 (operand16 code pc) < (code.length : Int) then
      .ok Return3
    else .error (verifyErr "GOTO branch target is outside the method")
  else .error (verifyErr "Invalid bytecode or argument")

/-- `CheckGotow` (spec §4.3 rule 3): the target `PC + signed 32-bit
offset` must lie within `[0, len(code))`. -/
def CheckGotow (code : List Nat) (pc : Nat) : Except String Nat :=
  if pc + 4 < code.length then
    if 0 ≤ (pc : Int) + sign32 (operand32 code pc) ∧
        (pc : Int) + sign32 (operand32 code pc) < (code.length : Int) then
      .ok Return5
    else .error (verifyErr "GOTO_W branch target is outside the method")
  else .error (verifyErr "Invalid bytecode or argument")

/-- A conditional 16-bit branch (IFEQ … IF_ACMPNE, IFNULL/IFNONNULL):
same target rule as GOTO, popping one slot. -/
def CheckIfBranch (code : List Nat) (pc : Nat) (stack : Int) :
    Except String (Int × Nat) :=
  match CheckGoto code pc with
  | .ok adv => .ok (stack - 1, adv)
  | .error e => .error e

/-- `CheckTableswitch` (spec §4.3 rule 5): PC+1 is aligned up to a
4-byte boundary, then default, low and high are read; requires
`low ≤ high` and `high - low + 1` following offsets. -/
def CheckTableswitch (code : List Nat) (pc : Nat) : Except String Nat :=
  let base := pc + 1 + (4 - (pc + 1) % 4) % 4
  if base + 12 ≤ code.length then
    let low := sign32 (operand32 code (base + 3))
    let high := sign32 (operand32 code (base + 7))
    if low ≤ high then
      let count := (high - low + 1).toNat
      if base + 12 + 4 * count ≤ code.length then
        .ok (base + 12 + 4 * count - pc)
      else .error (verifyErr "TABLESWITCH is missing jump offsets")
    else .error (verifyErr "TABLESWITCH low is greater than high")
  else .error (verifyErr "TABLESWITCH header runs past the end of the method")

/-- One dispatch step of the verifier walk: returns the possibly
rewritten code, the new stack model and the PC advance.  Modelled from
the spec (§4.3): opcode groups not named individually share the group's
length rule and stack effect; opcodes outside the modelled set are
rejected. -/
def checkStep (cp : CPool) (code : List Nat) (pc : Nat) (stack : Int) :
    Except String (List Nat × Int × Nat) :=
  let op := code.getD pc 0
  if op = NOP then .ok (code, stack, Return1)
  else if op = ACONST_NULL then
    let (st, adv) := CheckAconstnull stack
    .ok (code, st, adv)
  else if 0x02 ≤ op ∧ op ≤ 0x0F then .ok (code, stack + 1, Return1)
  else if op = BIPUSH then
    (CheckBipush code pc stack).map fun (st, adv) => (code, st, adv)
  else if op = SIPUSH then
    (CheckSipush code pc stack).map fun (st, adv) => (code, st, adv)
  else if op = LDC then
    if pc + 1 < code.length then .ok (code, stack + 1, Return2)
    else .error (verifyErr "Invalid bytecode or argument")
  else if op = LDC_W ∨ op = LDC2_W then
    if pc + 2 < code.length then .ok (code, stack + 1, Return3)
    else .error (verifyErr "Invalid bytecode or argument")
  else if 0x15 ≤ op ∧ op ≤ 0x19 then
    if pc + 1 < code.length then .ok (code, stack + 1, Return2)
    else .error (verifyErr "Invalid bytecode or argument")
  else if 0x1A ≤ op ∧ op ≤ 0x2D then .ok (code, stack + 1, Return1)
  else if 0x2E ≤ op ∧ op ≤ 0x35 then .ok (code, stack - 1, Return1)
  else if 0x36 ≤ op ∧ op ≤ 0x3A then
    if pc + 1 < code.length then .ok (code, stack - 1, Return2)
    else .error (verifyErr "Invalid bytecode or argument")
  else if 0x3B ≤ op ∧ op ≤ 0x4E then .ok (code, stack - 1, Return1)
  else if 0x4F ≤ op ∧ op ≤ 0x56 then .ok (code, stack - 3, Return1)
  else if op = POP then
    let (st, adv) := CheckPop stack
    .ok (code, st, adv)
  else if op = POP2 then
    let (st, adv) := CheckPop2 stack
    .ok (code, st, adv)
  else if op = DUP then
    let (st, adv) := CheckDup1 stack
    .ok (code, st, adv)
  else if op = 0x5A ∨ op = 0x5B then .ok (code, stack + 1, Return1)
  else if op = DUP2 then .ok (CheckDup2 code pc stack)
  else if op = 0x5D ∨ op = 0x5E then .ok (code, stack + 2, Return1)
  else if op = 0x5F then .ok (code, stack, Return1)
  else if 0x60 ≤ op ∧ op ≤ 0x73 then .ok (code, stack - 1, Return1)
  else if 0x74 ≤ op ∧ op ≤ 0x77 then .ok (code, stack, Return1)
  else if 0x78 ≤ op ∧ op ≤ 0x83 then .ok (code, stack - 1, Return1)
  else if op = 0x84 then
    if pc + 2 < code.length then .ok (code, stack, Return3)
    else .error (verifyErr "Invalid bytecode or argument")
  else if 0x85 ≤ op ∧ op ≤ 0x93 then .ok (code, stack, Return1)
  else if 0x94 ≤ op ∧ op ≤ 0x98 then .ok (code, stack - 1, Return1)
  else if (IFEQ ≤ op ∧ op ≤ 0xA6) ∨ op = 0xC6 ∨ op = 0xC7 then
    (CheckIfBranch code pc stack).map fun (st, adv) => (code, st, adv)
  else if op = GOTO then
    (CheckGoto code pc).map fun adv => (code, stack, adv)
  else if op = 0xA8 then
    (CheckGoto code pc).map fun adv => (code, stack + 1, adv)
  else if op = 0xA9 then
    if pc + 1 < code.length then .ok (code, stack, Return2)
    else .error (verifyErr "Invalid bytecode or argument")
  else if op = TABLESWITCH then
    (CheckTableswitch code pc).map fun adv => (code, stack - 1, adv)
  else if 0xAC ≤ op ∧ op ≤ RETURN then .ok (code, stack, Return1)
  else if 0xB2 ≤ op ∧ op ≤ 0xB5 then
    (CheckGetfield cp code pc).map fun adv => (code, stack, adv)
  else if op = INVOKEVIRTUAL ∨ op = INVOKESPECIAL ∨ op = INVOKESTATIC then
    (CheckInvokevirtual cp code pc).map fun adv => (code, stack, adv)
  else if op = INVOKEINTERFACE then
    (CheckInvokeinterface cp code pc).map fun adv => (code, stack, adv)
  else if op = 0xBB then
    if pc + 2 < code.length then
      if (cp.CpIndex.getD (operand16 code pc) ⟨0, 0⟩).Typ = ClassRef then
        .ok (code, stack + 1, Return3)
      else .error (verifyErr "NEW CP entry is not a class reference")
    else .error (verifyErr "Invalid bytecode or argument")
  else if op = 0xBC then
    if pc + 1 < code.length then .ok (code, stack, Return2)
    else .error (verifyErr "Invalid bytecode or argument")
  else if op = 0xBD ∨ op = 0xC0 ∨ op = 0xC1 then
    if pc + 2 < code.length then
      if (cp.CpIndex.getD (operand16 code pc) ⟨0, 0⟩).Typ = ClassRef then
        .ok (code, stack, Return3)
      else .error (verifyErr "CP entry is not a class reference")
    else .error (verifyErr "Invalid bytecode or argument")
  else if op = 0xBE ∨ op = 0xBF ∨ op = 0xC2 ∨ op = 0xC3 then
    .ok (code, stack, Return1)
  else if op = MULTIANEWARRAY then
    (CheckMultianewarray cp code pc).map fun adv => (code, stack, adv)
  else if op = GOTO_W then
    (CheckGotow code pc).map fun adv => (code, stack, adv)
  else if op = JSR_W then
    (CheckGotow code pc).map fun adv => (code, stack + 1, adv)
  else .error (verifyErr "Invalid bytecode or argument")

/-- The verifier walk: dispatch at `pc`, advance by the handler's
return value, stop at the end of the code.  Every handler advances by
at least 1, so `code.length + 1` steps of fuel always suffice. -/
def walkCode (cp : CPool) : Nat → List Nat → Nat → Int →
    Except String Unit
  | 0, _, _, _ => .error (verifyErr "verifier walk did not terminate")
  | fuel + 1, code, pc, stack =>
    if pc ≥ code.length then .ok ()
    else
      match checkStep cp code pc stack with
      | .ok (code2, stack2, adv) => walkCode cp fuel code2 (pc + adv) stack2
      | .error e => .error e

/-- `CheckCodeValidity` (spec §4.3): nil code pointer or nil CP pointer
is a fatal precondition error; empty code is permitted exactly for
abstract classes; an empty constant pool is rejected; otherwise the
bytecode is walked linearly. -/
def CheckCodeValidity (codePtr : Option (List Nat)) (cpp : Option CPool)
    (_maxLocals : Nat) (af : AccessFlags) : Except String Unit :=
  match codePtr with
  | none => .error "CheckCodeValidity: ptr to code segment is nil"
  | some code =>
    match cpp with
    | none => .error "CheckCodeValidity: ptr to constant pool is nil"
    | some cp =>
      if code.length = 0 then
        if af.ClassIsAbstract then .ok ()
        else .error "CheckCodeValidity: Empty code segment"
      else if cp.CpIndex.length = 0 then
        .error "CheckCodeValidity: empty constant pool"
      else walkCode cp (code.length + 1) code 0 0

/-- The basic 10-slot constant pool of the verifier tests. -/
def createBasicCP : CPool := { CpIndex := List.replicate 10 ⟨0, 0⟩ }

/-- The basic pool with slot `i` replaced by an entry of kind `t`. -/
def createCPWithEntry (i : Nat) (t : Nat) : CPool :=
  { CpIndex := (List.replicate 10 (⟨0, 0⟩ : CpEntry)).set i ⟨t, 0⟩ }

/-- C2: `CheckCodeValidity` returns a fatal precondition error on a nil
code pointer and on a nil constant-pool pointer; it rejects an empty
constant pool; and for every access-flag value it accepts an empty code
array exactly when the enclosing class is abstract. -/
theorem checkCodeValidity_preconditions :
    (∀ (cpp : Option CPool) (maxLocals : Nat) (af : AccessFlags),
      CheckCodeValidity none cpp maxLocals af =
        .error "CheckCodeValidity: ptr to code segment is nil") ∧
    (∀ (code : List Nat) (maxLocals : Nat) (af : AccessFlags),
      CheckCodeValidity (some code) none maxLocals af =
        .error "CheckCodeValidity: ptr to constant pool is nil") ∧
    (∀ (code : List Nat) (cp : CPool) (maxLocals : Nat) (af : AccessFlags),
      code ≠ [] → cp.CpIndex = [] →
      CheckCodeValidity (some code) (some cp) maxLocals af =
        .error "CheckCodeValidity: empty constant pool") ∧
    (∀ (cp : CPool) (maxLocals : Nat) (af : AccessFlags),
      CheckCodeValidity (some []) (some cp) maxLocals af = .ok () ↔
        af.ClassIsAbstract = true) := by
  refine ⟨fun _ _ _ => rfl, fun _ _ _ => rfl, ?_, ?_⟩
  · intro code cp maxLocals af hcode hcp
    simp [CheckCodeValidity, hcp, List.length_eq_zero, hcode]
  · intro cp maxLocals af
    cases haf : af.ClassIsAbstract <;>
      simp [CheckCodeValidity, haf]

theorem checkCodeValidity_preconditions_witness :
    CheckCodeValidity none (some createBasicCP) 5 {} =
      .error "CheckCodeValidity: ptr to code segment is nil" ∧
    CheckCodeValidity (some [NOP]) none 5 {} =
      .error "CheckCodeValidity: ptr to constant pool is nil" ∧
    CheckCodeValidity (some [NOP]) (some {}) 5 {} =
      .error "CheckCodeValidity: empty constant pool" ∧
    CheckCodeValidity (some []) (some createBasicCP) 5
      { ClassIsAbstract := true } = .ok () ∧
    CheckCodeValidity (some []) (some createBasicCP) 5 {} ≠ .ok () :=
  ⟨checkCodeValidity_preconditions.1 (some createBasicCP) 5 {},
   checkCodeValidity_preconditions.2.1 [NOP] 5 {},
   checkCodeValidity_preconditions.2.2.1 [NOP] {} 5 {} (by decide) rfl,
   (checkCodeValidity_preconditions.2.2.2 createBasicCP 5
      { ClassIsAbstract := true }).mpr rfl,
   fun h => Bool.false_ne_true
     ((checkCodeValidity_preconditions.2.2.2 createBasicCP 5 {}).mp h)⟩

/-- C5: when the opcode following `DUP2` operates on a Long/Double
slot, `CheckDup2` rewrites the `DUP2` byte in place to `DUP` and raises
the stack-depth model by 1; otherwise the byte is untouched and the
model rises by 2 (always advancing the PC by 1). -/
theorem checkDup2_rewrite (code : List Nat) (pc : Nat) (stack : Int)
    (next : Nat) (hnext : code.get? (pc + 1) = some next) :
    (BytecodeIsForLongOrDouble next = true →
      CheckDup2 code pc stack = (code.set pc DUP, stack + 1, 1)) ∧
    (BytecodeIsForLongOrDouble next = false →
      CheckDup2 code pc stack = (code, stack + 2, 1)) := by
  unfold CheckDup2
  rw [hnext]
  constructor
  · intro h
    simp [h, Return1]
  · intro h
    simp [h, Return1]

theorem checkDup2_rewrite_witness :
    CheckDup2 [NOP, DUP2, LADD] 1 1 = ([NOP, DUP, LADD], 2, 1) ∧
    CheckDup2 [DUP2, IADD] 0 2 = ([DUP2, IADD], 4, 1) :=
  ⟨(checkDup2_rewrite [NOP, DUP2, LADD] 1 1 LADD rfl).1 (by decide),
   (checkDup2_rewrite [DUP2, IADD] 0 2 IADD rfl).2 (by decide)⟩

/-- C6: a 16-bit (`GOTO`-family) or 32-bit (`GOTO_W`) branch is
accepted only if the computed target `PC + signed offset` lies within
`[0, len(code))`; in particular `GOTO` with offset −2 at PC 0 is
rejected, and `GOTO` with offset +16 is rejected in any method shorter
than 17 bytes. -/
theorem branch_target_bounds :
    (∀ (code : List Nat) (pc adv : Nat), CheckGoto code pc = .ok adv →
      0 ≤ (pc : Int) + sign16 (operand16 code pc) ∧
      (pc : Int) + sign16 (operand16 code pc) < (code.length : Int)) ∧
    (∀ (code : List Nat) (pc adv : Nat), CheckGotow code pc = .ok adv →
      0 ≤ (pc : Int) + sign32 (operand32 code pc) ∧
      (pc : Int) + sign32 (operand32 code pc) < (code.length : Int)) ∧
    (∃ e, CheckGoto [GOTO, 0xFF, 0xFE] 0 = .error e) ∧
    (∀ code : List Nat, code.length < 17 → operand16 code 0 = 16 →
      ∃ e, CheckGoto code 0 = .error e) := by
  refine ⟨?_, ?_, ⟨_, rfl⟩, ?_⟩
  · intro code pc adv h
    unfold CheckGoto at h
    split_ifs at h with h1 h2
    exact h2
  · intro code pc adv h
    unfold CheckGotow at h
    split_ifs at h with h1 h2
    exact h2
  · intro code hlen hop
    unfold CheckGoto
    by_cases hl : 0 + 2 < code.length
    · rw [if_pos hl, hop, show sign16 16 = (16 : Int) from by decide,
        if_neg (by
          rintro ⟨h0, hlt⟩
          have hx : (code.length : Int) < 17 := by exact_mod_cast hlen
          omega)]
      exact ⟨_, rfl⟩
    · rw [if_neg hl]
      exact ⟨_, rfl⟩

theorem branch_target_bounds_witness :
    (0 ≤ (0 : Int) + sign16 (operand16 [GOTO, 0, 3, 0, 0, 0, 0] 0) ∧
      (0 : Int) + sign16 (operand16 [GOTO, 0, 3, 0, 0, 0, 0] 0) <
        (([GOTO, 0, 3, 0, 0, 0, 0] : List Nat).length : Int)) ∧
    (0 ≤ (0 : Int) + sign32 (operand32 [GOTO_W, 0, 0, 0, 5, 0] 0) ∧
      (0 : Int) + sign32 (operand32 [GOTO_W, 0, 0, 0, 5, 0] 0) <
        (([GOTO_W, 0, 0, 0, 5, 0] : List Nat).length : Int)) ∧
    (∃ e, CheckGoto [GOTO, 0, 0x10, 0, 0, 0, 0, 0] 0 = .error e) :=
  ⟨branch_target_bounds.1 [GOTO, 0, 3, 0, 0, 0, 0] 0 3 rfl,
   branch_target_bounds.2.1 [GOTO_W, 0, 0, 0, 5, 0] 0 5 rfl,
   branch_target_bounds.2.2.2 [GOTO, 0, 0x10, 0, 0, 0, 0, 0]
     (by decide) (by decide)⟩

/-- C7: with enough operand bytes and an in-range CP index,
`CheckInvokeinterface` succeeds exactly when the two-byte index
designates an InterfaceMethodRef entry, the count byte is non-zero and
the fourth operand byte is zero; violating any of the three conditions
produces a verification error. -/
theorem checkInvokeinterface_operand_rules (cp : CPool) (code : List Nat)
    (pc : Nat) (hlen : pc + 4 < code.length)
    (hidx : operand16 code pc < cp.CpIndex.length) :
    (CheckInvokeinterface cp code pc = .ok 4 ↔
      ((cp.CpIndex.getD (operand16 code pc) ⟨0, 0⟩).Typ = Interface ∧
        code.getD (pc + 3) 0 ≠ 0 ∧ code.getD (pc + 4) 0 = 0)) ∧
    (¬ ((cp.CpIndex.getD (operand16 code pc) ⟨0, 0⟩).Typ = Interface ∧
        code.getD (pc + 3) 0 ≠ 0 ∧ code.getD (pc + 4) 0 = 0) →
      ∃ e, CheckInvokeinterface cp code pc = .error e) := by
  unfold CheckInvokeinterface
  rw [if_pos hlen, if_pos hidx]
  constructor
  · constructor
    · intro h
      split_ifs at h with h1 h2 h3
      exact ⟨h1, h2, h3⟩
    · rintro ⟨h1, h2, h3⟩
      rw [if_pos h1, if_pos h2, if_pos h3]
      rfl
  · intro hneg
    split_ifs with h1 h2 h3
    · exact absurd ⟨h1, h2, h3⟩ hneg
    · exact ⟨_, rfl⟩
    · exact ⟨_, rfl⟩
    · exact ⟨_, rfl⟩

theorem checkInvokeinterface_operand_rules_witness :
    CheckInvokeinterface (createCPWithEntry 1 Interface)
      [INVOKEINTERFACE, 0, 1, 2, 0] 0 = .ok 4 ∧
    (∃ e, CheckInvokeinterface (createCPWithEntry 1 Interface)
      [INVOKEINTERFACE, 0, 1, 2, 1] 0 = .error e) ∧
    (∃ e, CheckInvokeinterface (createCPWithEntry 1 Interface)
      [INVOKEINTERFACE, 0, 1, 0, 0] 0 = .error e) ∧
    (∃ e, CheckInvokeinterface (createCPWithEntry 1 MethodRef)
      [INVOKEINTERFACE, 0, 1, 2, 0] 0 = .error e) :=
  ⟨(checkInvokeinterface_operand_rules (createCPWithEntry 1 Interface)
      [INVOKEINTERFACE, 0, 1, 2, 0] 0 (by decide) (by decide)).1.mpr
      (by decide),
   (checkInvokeinterface_operand_rules (createCPWithEntry 1 Interface)
      [INVOKEINTERFACE, 0, 1, 2, 1] 0 (by decide) (by decide)).2 (by decide),
   (checkInvokeinterface_operand_rules (createCPWithEntry 1 Interface)
      [INVOKEINTERFACE, 0, 1, 0, 0] 0 (by decide) (by decide)).2 (by decide),
   (checkInvokeinterface_operand_rules (createCPWithEntry 1 MethodRef)
      [INVOKEINTERFACE, 0, 1, 2, 0] 0 (by decide) (by decide)).2 (by decide)⟩

end Jacobin
